import Mathlib

/-!
Verification of the chefshare_be authentication core: a shallow embedding of the
refresh-token ledger, JWT service, one-time-code ledgers and the auth handlers,
with theorems settling the specification claims about them.

Conventions of the embedding:
* time instants are `Nat` (Unix-like); `time.Now()` is an explicit `now` argument;
* each SQL statement issued through a raw `*sql.DB` handle is one atomic
  autocommitted state transition on the embedded database value; a `*sql.Tx`
  that never has statements executed on it contributes no state transition,
  so its `Commit`/`Rollback` are no-ops on the visible state (this mirrors
  database/sql semantics: statements run via `s.db` do not join an open `tx`);
* random generation (uuid refresh-token strings, OTP digits, serial row ids) is
  passed in as an explicit argument by the caller;
* bcrypt hashing is an external capability; it is embedded as an injective
  tagging function `bcryptHash` with `CheckPassword` comparing against it.
-/

namespace ChefShare

/-- A row of the `refresh_tokens` table (store/user_handler.go, `RefreshToken`).
The schema declares `token TEXT NOT NULL UNIQUE`. -/
structure RefreshTokenRow where
  token : String
  userId : String
  expiresAt : Nat
  revoked : Bool
  ipAddress : String
  userAgent : String
  deriving Repr, DecidableEq

/-- The `refresh_tokens` table. -/
abbrev RefreshDB := List RefreshTokenRow

/-- `PostgresRefreshTokenStore.GetRefreshToken`: runs
`SELECT ... WHERE token = $1 AND expires_at > $2` with `$2 = time.Now()`,
returns `(nil, nil)` on `sql.ErrNoRows`, and errors with
"token has been revoked" when the fetched row has the `revoked` flag set. -/
def GetRefreshToken (db : RefreshDB) (token : String) (now : Nat) :
    Except String (Option RefreshTokenRow) :=
  match db.find? (fun r => r.token == token && now < r.expiresAt) with
  | none => .ok none
  | some r => if r.revoked then .error "token has been revoked" else .ok (some r)

/-- `PostgresRefreshTokenStore.RevokeRefreshToken`: runs
`DELETE FROM refresh_tokens WHERE token = $1` and errors with "token not found"
when `rowsAffected = 0`. -/
def RevokeRefreshToken (db : RefreshDB) (token : String) : Except String RefreshDB :=
  let remaining := db.filter (fun r => r.token != token)
  if remaining.length == db.length then .error "token not found" else .ok remaining

/-- `PostgresRefreshTokenStore.CreateRefreshToken`: inserts a row with a fresh
uuid token string (passed in as `newToken`), `expires_at = now + duration` and
`revoked = false`. The insert violates the `UNIQUE` constraint on `token` when
a row with the same token string already exists. -/
def CreateRefreshToken (db : RefreshDB) (newToken userId : String)
    (now duration : Nat) (ip ua : String) :
    Except String (RefreshTokenRow × RefreshDB) :=
  if db.any (fun r => r.token == newToken) then
    .error "failed to create refresh token"
  else
    let row : RefreshTokenRow :=
      { token := newToken, userId := userId, expiresAt := now + duration,
        revoked := false, ipAddress := ip, userAgent := ua }
    .ok (row, db ++ [row])

/-- `PostgresRefreshTokenStore.RevokeAllUserRefreshTokens`: runs
`DELETE FROM refresh_tokens WHERE user_id = $1`, returning the row count. -/
def RevokeAllUserRefreshTokens (db : RefreshDB) (userId : String) :
    Nat × RefreshDB :=
  let remaining := db.filter (fun r => r.userId != userId)
  (db.length - remaining.length, remaining)

/-- A row of the `users` table, restricted to the auth-relevant columns
(store, `User`). `passwordHash` holds the bcrypt digest. -/
structure User where
  userId : String
  username : String
  email : String
  passwordHash : String
  firstName : String
  emailVerified : Bool
  deriving Repr, DecidableEq

/-- The `users` table. -/
abbrev UserDB := List User

/-- `PostgresUserStore.GetUserByID`: point lookup, `nil` when absent. -/
def GetUserByID (db : UserDB) (userId : String) : Option User :=
  db.find? (fun u => u.userId == userId)

/-- `PostgresUserStore.GetUserByEmail`: point lookup, `nil` when absent. -/
def GetUserByEmail (db : UserDB) (email : String) : Option User :=
  db.find? (fun u => u.email == email)

/-- External bcrypt capability: `Hash(plaintext) -> digest`, embedded as an
injective tag. -/
def bcryptHash (plaintext : String) : String := "bcrypt$" ++ plaintext

/-- `password.CheckPassword`: bcrypt comparison of digest and plaintext. -/
def CheckPassword (digest plaintext : String) : Bool := digest == bcryptHash plaintext

/-- `PostgresUserStore.UpdatePassword`: hashes the new password and runs
`UPDATE users SET password_hash = $1 ... WHERE user_id = $2` on the raw
connection (autocommitted; the function takes no transaction handle). -/
def UpdatePasswordStore (db : UserDB) (userId newPassword : String) : UserDB :=
  db.map (fun u => if u.userId == userId then { u with passwordHash := bcryptHash newPassword } else u)

/-- Signing algorithms relevant to `ValidateAccessToken`
(`jwt.SigningMethodHMAC` check). -/
inductive SigAlg
  | HS256
  | RS256
  deriving Repr, DecidableEq

/-- The claims minted by `GenerateAccessToken` (services/jwt_service.go,
`CustomClaims`). -/
structure CustomClaims where
  userId : String
  username : String
  email : String
  iat : Nat
  nbf : Nat
  exp : Nat
  issuer : String
  subject : String
  deriving Repr, DecidableEq

/-- A serialized JWT as it travels on the wire: either a structurally valid
compact serialization carrying an algorithm, claims and the secret its
signature was produced with, or a string that does not parse as a JWT. -/
inductive TokenStr
  | jwt (alg : SigAlg) (claims : CustomClaims) (signedWith : String)
  | malformed (s : String)
  deriving Repr, DecidableEq

/-- `JWTService.GenerateAccessToken`: mints HS256 claims
`{user_id, username, email, iat = nbf = now, exp = now + AccessTokenDuration,
iss = "chefshare_api", sub = user_id}` signed with the access secret. -/
def GenerateAccessToken (user : User) (now accessDuration : Nat) (secret : String) :
    TokenStr :=
  .jwt .HS256
    { userId := user.userId, username := user.username, email := user.email,
      iat := now, nbf := now, exp := now + accessDuration,
      issuer := "chefshare_api", subject := user.userId }
    secret

/-- The golang-jwt/v5 `ParseWithClaims` contract as used with the service's
HMAC keyfunc: reject non-HMAC algorithms, then verify the signature against
the configured secret, then validate the registered `exp`/`nbf` claims.
The error messages are the distinct ones the library produces. -/
def jwtParseWithClaims (tok : TokenStr) (secret : String) (now : Nat) :
    Except String CustomClaims :=
  match tok with
  | .malformed _ => .error "token is malformed"
  | .jwt alg claims signedWith =>
    if alg != SigAlg.HS256 then .error "unexpected signing method"
    else if signedWith != secret then .error "token signature is invalid"
    else if claims.exp ≤ now then .error "token has invalid claims: token is expired"
    else if now < claims.nbf then .error "token has invalid claims: token is not valid yet"
    else .ok claims

/-- The result of `JWTService.RefreshAccessToken` together with the state of
the `refresh_tokens` table as it stands when the call returns. The store calls
inside the function execute on the raw `*sql.DB` (autocommit), so effects that
already ran persist even on the error paths. -/
structure RotateResult where
  result : Except String (TokenStr × RefreshTokenRow)
  db : RefreshDB
  deriving Repr

/-- `JWTService.RefreshAccessToken` (services/jwt_service.go:153-227):
look up the refresh token (the SQL filters out expired rows), load the owning
user, `db.Begin()` a transaction, delete the old token, mint a new access
token, insert a new refresh token carrying the old row's ip/user-agent, and
commit. The `tx` handle never has a statement executed on it —
`RevokeRefreshToken` and `CreateRefreshToken` both run on `s.db` — so the
deferred rollback on error restores nothing: the embedded state simply keeps
every autocommitted effect that already ran. `newToken` is the uuid generated
inside `CreateRefreshToken`. -/
def RefreshAccessToken (users : UserDB) (db : RefreshDB)
    (refreshTokenString : String) (now accessDuration refreshDuration : Nat)
    (secret newToken : String) : RotateResult :=
  match GetRefreshToken db refreshTokenString now with
  | .error _ => { result := .error "failed to get refresh token", db := db }
  | .ok none => { result := .error "invalid refresh token", db := db }
  | .ok (some rt) =>
    match GetUserByID users rt.userId with
    | none => { result := .error "user not found", db := db }
    | some user =>
      match RevokeRefreshToken db refreshTokenString with
      | .error _ => { result := .error "failed to revoke old refresh token", db := db }
      | .ok db1 =>
        let accessToken := GenerateAccessToken user now accessDuration secret
        match CreateRefreshToken db1 newToken user.userId now refreshDuration
            rt.ipAddress rt.userAgent with
        | .error _ => { result := .error "failed to create new refresh token", db := db1 }
        | .ok (newRt, db2) => { result := .ok (accessToken, newRt), db := db2 }

/-- A row of the `blacklisted_tokens` table (store/token_blacklist_store.go).
The table has a unique index on `token`. -/
structure BlacklistedToken where
  token : TokenStr
  expiresAt : Nat
  deriving Repr, DecidableEq

/-- The `blacklisted_tokens` table. -/
abbrev BlacklistDB := List BlacklistedToken

/-- `PostgresTokenBlacklistStore.BlacklistToken`: runs
`INSERT INTO blacklisted_tokens (token, expires_at) VALUES ($1, $2)
ON CONFLICT (token) DO NOTHING`; a duplicate token leaves the table unchanged
and the call returns without error. -/
def BlacklistToken (db : BlacklistDB) (tokenString : TokenStr) (expiresAt : Nat) :
    BlacklistDB :=
  if db.any (fun r => r.token == tokenString) then db
  else db ++ [{ token := tokenString, expiresAt := expiresAt }]

/-- `PostgresTokenBlacklistStore.IsBlacklisted`: runs
`SELECT EXISTS(SELECT 1 ... WHERE token = $1 AND expires_at > $2)`. -/
def IsBlacklisted (db : BlacklistDB) (tokenString : TokenStr) (now : Nat) : Bool :=
  db.any (fun r => r.token == tokenString && now < r.expiresAt)

/-- `JWTService.ValidateAccessToken` (services/jwt_service.go:230-267): check
the blacklist first (a blacklist-store failure is only logged; the store is
embedded as non-failing), fail with "token is revoked" if blacklisted,
otherwise parse with the HMAC keyfunc and wrap any parse error as
"invalid token: " plus the library error. -/
def ValidateAccessToken (bl : BlacklistDB) (tokenString : TokenStr)
    (secret : String) (now : Nat) : Except String CustomClaims :=
  if IsBlacklisted bl tokenString now then .error "token is revoked"
  else
    match jwtParseWithClaims tokenString secret now with
    | .error e => .error ("invalid token: " ++ e)
    | .ok claims => .ok claims

/-- `JWTService.BlacklistAccessToken` (services/jwt_service.go:280-300): parse
the token to recover its expiry; when the token parses and is valid use its
`exp` claim, otherwise use a default expiry of `now` + 24 hours; then insert
into the blacklist. -/
def BlacklistAccessToken (bl : BlacklistDB) (tokenString : TokenStr)
    (secret : String) (now : Nat) : BlacklistDB :=
  let expiresAt :=
    match jwtParseWithClaims tokenString secret now with
    | .ok claims => claims.exp
    | .error _ => now + 24 * 60 * 60
  BlacklistToken bl tokenString expiresAt

/-- A row of the `password_reset_tokens` table (store/password_reset_store.go,
`PasswordResetToken`). -/
structure PasswordResetToken where
  id : Nat
  userId : String
  token : String
  expiresAt : Nat
  used : Bool
  deriving Repr, DecidableEq

/-- The `password_reset_tokens` table. -/
abbrev ResetDB := List PasswordResetToken

/-- `PostgresPasswordResetStore.DeleteUserTokens`:
`DELETE FROM password_reset_tokens WHERE user_id = $1`, returning the count. -/
def DeleteUserResetTokens (db : ResetDB) (userId : String) : Nat × ResetDB :=
  let remaining := db.filter (fun r => r.userId != userId)
  (db.length - remaining.length, remaining)

/-- `PostgresPasswordResetStore.CreatePasswordResetToken`: first delete every
existing reset token of the user, then insert a freshly generated 6-digit OTP
(`newToken`, drawn from crypto/rand) with `expires_at = now + expiry` and
`used = false`. `newId` is the serial id the insert returns. -/
def CreatePasswordResetToken (db : ResetDB) (userId : String)
    (now expiryDuration : Nat) (newToken : String) (newId : Nat) :
    PasswordResetToken × ResetDB :=
  let cleaned := (DeleteUserResetTokens db userId).2
  let row : PasswordResetToken :=
    { id := newId, userId := userId, token := newToken,
      expiresAt := now + expiryDuration, used := false }
  (row, cleaned ++ [row])

/-- `PostgresPasswordResetStore.GetPasswordResetTokenByToken`: point lookup by
the code value itself, `nil` when absent; no expiry filter in the query. -/
def GetPasswordResetTokenByToken (db : ResetDB) (token : String) :
    Option PasswordResetToken :=
  db.find? (fun r => r.token == token)

/-- `PostgresPasswordResetStore.MarkTokenAsUsed`:
`UPDATE password_reset_tokens SET used = true WHERE id = $1`. -/
def MarkTokenAsUsed (db : ResetDB) (tokenID : Nat) : ResetDB :=
  db.map (fun r => if r.id == tokenID then { r with used := true } else r)

/-- `PostgresPasswordResetStore.DeleteExpiredTokens`:
`DELETE FROM password_reset_tokens WHERE expires_at < $1` with `$1 = now`. -/
def DeleteExpiredResetTokens (db : ResetDB) (now : Nat) : ResetDB :=
  db.filter (fun r => !(r.expiresAt < now))

/-- `PostgresPasswordResetStore.ResetPasswordTransaction`: hash the password,
then in one real transaction (both statements run on `tx`) update the user's
password digest and mark the reset token used; both effects commit together. -/
def ResetPasswordTransaction (users : UserDB) (db : ResetDB)
    (tokenID : Nat) (userId newPassword : String) : UserDB × ResetDB :=
  let users' := users.map (fun u =>
    if u.userId == userId then { u with passwordHash := bcryptHash newPassword } else u)
  (users', MarkTokenAsUsed db tokenID)

/-- A row of the `email_verification_tokens` table
(store/email_verification_store.go, `EmailVerificationToken`). -/
structure EmailVerificationToken where
  id : Nat
  userId : String
  token : String
  expiresAt : Nat
  deriving Repr, DecidableEq

/-- The `email_verification_tokens` table. -/
abbrev VerificationDB := List EmailVerificationToken

/-- `PostgresEmailVerificationStore.DeleteUserTokens`:
`DELETE FROM email_verification_tokens WHERE user_id = $1`. -/
def DeleteUserVerificationTokens (db : VerificationDB) (userId : String) :
    Nat × VerificationDB :=
  let remaining := db.filter (fun r => r.userId != userId)
  (db.length - remaining.length, remaining)

/-- `PostgresEmailVerificationStore.CreateVerificationToken`: first delete
every existing verification token of the user, then insert a freshly generated
42-character URL-safe random token (`newToken`). -/
def CreateVerificationToken (db : VerificationDB) (userId : String)
    (now expiryDuration : Nat) (newToken : String) (newId : Nat) :
    EmailVerificationToken × VerificationDB :=
  let cleaned := (DeleteUserVerificationTokens db userId).2
  let row : EmailVerificationToken :=
    { id := newId, userId := userId, token := newToken,
      expiresAt := now + expiryDuration }
  (row, cleaned ++ [row])

/-- `PostgresEmailVerificationStore.GetVerificationTokenByToken`: point lookup
by token value, `nil` when absent. -/
def GetVerificationTokenByToken (db : VerificationDB) (token : String) :
    Option EmailVerificationToken :=
  db.find? (fun r => r.token == token)

/-- ASCII lowering of one character (`strings.ToLower`, restricted to the
ASCII range the validators accept). -/
def toLowerChar (c : Char) : Char :=
  if 'A' ≤ c && c ≤ 'Z' then Char.ofNat (c.toNat + 32) else c

/-- `strings.TrimSpace` on a character list: drop whitespace from both ends. -/
def trimSpaceList (l : List Char) : List Char :=
  ((l.dropWhile Char.isWhitespace).reverse.dropWhile Char.isWhitespace).reverse

/-- `strings.TrimSpace` on a string. -/
def trimSpace (s : String) : String := String.mk (trimSpaceList s.data)

/-- `strings.ToLower(strings.TrimSpace(email))`, the normalization the
password-reset handlers apply to the request email. -/
def normalizeEmail (s : String) : String :=
  String.mk ((trimSpaceList s.data).map toLowerChar)

/-- Character class `[a-zA-Z0-9._%+-]` of the email regex's local part. -/
def isLocalChar (c : Char) : Bool :=
  c.isAlphanum || c == '.' || c == '_' || c == '%' || c == '+' || c == '-'

/-- Character class `[a-zA-Z0-9.-]` of the email regex's domain part. -/
def isDomainChar (c : Char) : Bool :=
  c.isAlphanum || c == '.' || c == '-'

/-- Matches `[a-zA-Z0-9.-]+\.[a-zA-Z]` followed by at least one more letter,
i.e. the domain of `utils.emailRegex`: some split at a dot where the prefix is
a nonempty run of domain characters and the suffix is two or more letters. -/
def matchEmailDomain (l : List Char) : Bool :=
  (List.range l.length).any (fun i =>
    let pre := l.take i
    match l.drop i with
    | '.' :: suf =>
      !pre.isEmpty && pre.all isDomainChar && decide (2 ≤ suf.length) && suf.all Char.isAlpha
    | _ => false)

/-- `utils.IsValidEmail`: the regex
`^[a-zA-Z0-9._%+-]+@[a-zA-Z0-9.-]+\.[a-zA-Z]` with a 2+ letter TLD, anchored
at both ends. Since no character class contains `@`, a match splits the
string at its first `@`. -/
def IsValidEmail (s : String) : Bool :=
  let l := s.data
  let localPart := l.takeWhile (fun c => c != '@')
  match l.dropWhile (fun c => c != '@') with
  | '@' :: domain => !localPart.isEmpty && localPart.all isLocalChar && matchEmailDomain domain
  | _ => false

/-- `utils.IsNumeric`: every rune is in `0`..`9`. -/
def IsNumeric (s : String) : Bool :=
  s.data.all (fun c => '0' ≤ c && c ≤ '9')

/-- The symbol set of `utils.ContainsNumberAndSymbol`. -/
def symbolChars : List Char :=
  ['!', '@', '#', '$', '%', '^', '&', '*', '(', ')', '-', '_', '=', '+',
   '[', ']', Char.ofNat 123, Char.ofNat 125, '|', ';', ':', Char.ofNat 39,
   ',', '.', '<', '>', '?', '/', Char.ofNat 96, '~']

/-- `utils.ContainsNumberAndSymbol`: the string has at least one decimal digit
and at least one character of the symbol set. -/
def ContainsNumberAndSymbol (s : String) : Bool :=
  s.data.any (fun c => '0' ≤ c && c ≤ '9') && s.data.any (fun c => symbolChars.contains c)

/-- The 400 body both password-strength checks emit. -/
def weakPasswordBody : String :=
  "password must be at least 8 characters with a number and symbol"

/-- The 400 body of the same-password check. -/
def differentPasswordBody : String :=
  "new password must be different from current password"

/-- The 429 body of the reset-confirm rate limit. -/
def rateLimitBody : String :=
  "too many password reset attempts, please try again later"

/-- A flat HTTP response: status code plus the `error`/`message` string of the
JSON body. -/
structure Response where
  status : Nat
  body : String
  deriving Repr, DecidableEq

/-- A logout request body: either JSON that fails to bind, or a bound body
whose `refresh_token` field is the given string (absent binds to ""). -/
inductive LogoutRequest
  | badJSON
  | withToken (refreshToken : String)
  deriving Repr, DecidableEq

/-- Result of the logout endpoint: response plus ledger state. -/
structure LogoutResult where
  response : Response
  db : RefreshDB
  deriving Repr

/-- `AuthHandler.LogoutUser` (api/auth_handler.go:369-393): bind the body
(400 on bind failure), treat an empty token as "no active session" success,
otherwise revoke the token and return success even when revocation errored
(the error is only logged). -/
def LogoutUser (db : RefreshDB) : LogoutRequest → LogoutResult
  | .badJSON => { response := { status := 400, body := "missing refresh token" }, db := db }
  | .withToken t =>
    if t == "" then
      { response := { status := 200, body := "no active session" }, db := db }
    else
      match RevokeRefreshToken db t with
      | .ok db' => { response := { status := 200, body := "logout successful" }, db := db' }
      | .error _ => { response := { status := 200, body := "logout successful" }, db := db }

/-- Result of the authenticated password-change endpoint. -/
structure UpdatePasswordResult where
  response : Response
  users : UserDB
  refresh : RefreshDB
  deriving Repr

/-- `UserHandler.UpdatePassword` (api/user_handler.go:225-339): fetch the
user, verify the current password, check strength and difference, then
`db.Begin()` a transaction and run `UserStore.UpdatePassword` and
`JWTService.RevokeAllUserRefreshTokens`. Both store calls execute on the raw
`*sql.DB` (autocommit) — the `tx` never has a statement on it — and a
revocation error is logged and swallowed ("Continue with the password change
even if token revocation fails"), after which the commit of the empty
transaction succeeds and the handler reports success.
`revokeStoreFails` injects an infrastructure failure of the revocation
DELETE. -/
def UpdatePasswordHandler (users : UserDB) (refresh : RefreshDB)
    (userId currentPassword newPassword : String) (revokeStoreFails : Bool) :
    UpdatePasswordResult :=
  match GetUserByID users userId with
  | none => { response := { status := 404, body := "user not found" },
              users := users, refresh := refresh }
  | some user =>
    if !(CheckPassword user.passwordHash currentPassword) then
      { response := { status := 401, body := "invalid current password" },
        users := users, refresh := refresh }
    else if newPassword.length < 8 || !(ContainsNumberAndSymbol newPassword) then
      { response := { status := 400, body := weakPasswordBody },
        users := users, refresh := refresh }
    else if currentPassword == newPassword then
      { response := { status := 400, body := differentPasswordBody },
        users := users, refresh := refresh }
    else
      let users' := UpdatePasswordStore users userId newPassword
      let refresh' :=
        if revokeStoreFails then refresh
        else (RevokeAllUserRefreshTokens refresh userId).2
      { response := { status := 200, body := "password updated successfully" },
        users := users', refresh := refresh' }

/-- The anti-enumeration success message of the password-reset request
endpoint. -/
def resetRequestMessage : String :=
  "if your email is registered, we\x27ve sent a password reset code"

/-- `OTPExpiry` (api/password_reset_handler.go): 15 minutes. -/
def OTPExpiry : Nat := 15 * 60

/-- Result of the password-reset request endpoint: response, reset-token
table, and the recipients of dispatched reset emails. -/
structure RequestResetResult where
  response : Response
  resetDB : ResetDB
  emailsSent : List String
  deriving Repr, DecidableEq

/-- `AuthHandler.RequestPasswordReset` (api/password_reset_handler.go:46-118):
normalize and validate the email, apply the email rate limit (a negative
result returns the generic success message), look up the user — if absent
still return the generic message, creating nothing and sending nothing —
otherwise create a reset OTP and dispatch the reset email. `newOtp`/`newId`
are the generated OTP and serial id. -/
def RequestPasswordReset (users : UserDB) (resetDB : ResetDB) (email : String)
    (rateAllowed : Bool) (now : Nat) (newOtp : String) (newId : Nat) :
    RequestResetResult :=
  let e := normalizeEmail email
  if !(IsValidEmail e) then
    { response := { status := 400, body := "invalid email format" },
      resetDB := resetDB, emailsSent := [] }
  else if !rateAllowed then
    { response := { status := 200, body := resetRequestMessage },
      resetDB := resetDB, emailsSent := [] }
  else
    match GetUserByEmail users e with
    | none =>
      { response := { status := 200, body := resetRequestMessage },
        resetDB := resetDB, emailsSent := [] }
    | some user =>
      let created := CreatePasswordResetToken resetDB user.userId now OTPExpiry newOtp newId
      { response := { status := 200, body := resetRequestMessage },
        resetDB := created.2, emailsSent := [user.email] }

/-- The uniform rejection of the reset-confirm endpoint. -/
def invalidOtpResponse : Response := { status := 400, body := "invalid or expired OTP" }

/-- Result of the password-reset confirm endpoint. -/
structure VerifyOTPResult where
  response : Response
  users : UserDB
  resetDB : ResetDB
  refresh : RefreshDB
  deriving Repr

/-- `AuthHandler.VerifyOTPAndResetPassword`
(api/password_reset_handler.go:134-236): normalize inputs, validate
email/OTP/password shape, rate-limit (429 on refusal), look up the user (404
if absent), look up the code by value, reject with the one
"invalid or expired OTP" response unless the code exists, belongs to this
user, is unused and unexpired (`ExpiresAt.Before(now)` is expiry), then run
`ResetPasswordTransaction` (password update + mark-used, genuinely in one
transaction) and best-effort revoke all the user's refresh tokens. -/
def VerifyOTPAndResetPassword (users : UserDB) (resetDB : ResetDB)
    (refresh : RefreshDB) (email otp newPassword : String)
    (rateAllowed : Bool) (now : Nat) (revokeStoreFails : Bool) :
    VerifyOTPResult :=
  let e := normalizeEmail email
  let o := trimSpace otp
  if !(IsValidEmail e) then
    { response := { status := 400, body := "invalid email format" },
      users := users, resetDB := resetDB, refresh := refresh }
  else if o.length != 6 || !(IsNumeric o) then
    { response := { status := 400, body := "invalid OTP format" },
      users := users, resetDB := resetDB, refresh := refresh }
  else if newPassword.length < 8 || !(ContainsNumberAndSymbol newPassword) then
    { response := { status := 400, body := weakPasswordBody },
      users := users, resetDB := resetDB, refresh := refresh }
  else if !rateAllowed then
    { response := { status := 429, body := rateLimitBody },
      users := users, resetDB := resetDB, refresh := refresh }
  else
    match GetUserByEmail users e with
    | none =>
      { response := { status := 404, body := "user not found" },
        users := users, resetDB := resetDB, refresh := refresh }
    | some user =>
      match GetPasswordResetTokenByToken resetDB o with
      | none =>
        { response := invalidOtpResponse,
          users := users, resetDB := resetDB, refresh := refresh }
      | some tk =>
        if tk.userId != user.userId || tk.used || decide (tk.expiresAt < now) then
          { response := invalidOtpResponse,
            users := users, resetDB := resetDB, refresh := refresh }
        else
          let updated := ResetPasswordTransaction users resetDB tk.id user.userId newPassword
          let refresh' :=
            if revokeStoreFails then refresh
            else (RevokeAllUserRefreshTokens refresh user.userId).2
          { response := { status := 200, body := "password reset successful" },
            users := updated.1, resetDB := updated.2, refresh := refresh' }

/-- The mutating operations the repository performs on the
`password_reset_tokens` table. -/
inductive ResetOp
  | create (userId : String) (now expiry : Nat) (newToken : String) (newId : Nat)
  | markUsed (tokenID : Nat)
  | deleteExpired (now : Nat)
  | deleteUser (userId : String)
  | resetTransaction (tokenID : Nat)
  deriving Repr, DecidableEq

/-- Effect of one operation on the `password_reset_tokens` table
(`resetTransaction` touches this table only through its mark-used
statement). -/
def applyResetOp (db : ResetDB) : ResetOp → ResetDB
  | .create u now expiry tok id => (CreatePasswordResetToken db u now expiry tok id).2
  | .markUsed id => MarkTokenAsUsed db id
  | .deleteExpired now => DeleteExpiredResetTokens db now
  | .deleteUser u => (DeleteUserResetTokens db u).2
  | .resetTransaction id => MarkTokenAsUsed db id

/-- A sequence of reset-table operations applied in order. -/
def applyResetOps (db : ResetDB) (ops : List ResetOp) : ResetDB :=
  ops.foldl applyResetOp db

/-- The mutating operations on the `email_verification_tokens` table. -/
inductive VerificationOp
  | create (userId : String) (now expiry : Nat) (newToken : String) (newId : Nat)
  | deleteToken (tokenID : Nat)
  | deleteUser (userId : String)
  | deleteExpired (now : Nat)
  deriving Repr, DecidableEq

/-- `PostgresEmailVerificationStore.DeleteToken`:
`DELETE FROM email_verification_tokens WHERE id = $1`. -/
def DeleteVerificationToken (db : VerificationDB) (tokenID : Nat) : VerificationDB :=
  db.filter (fun r => r.id != tokenID)

/-- `PostgresEmailVerificationStore.DeleteExpiredTokens`:
`DELETE FROM email_verification_tokens WHERE expires_at < $1`. -/
def DeleteExpiredVerificationTokens (db : VerificationDB) (now : Nat) : VerificationDB :=
  db.filter (fun r => !(r.expiresAt < now))

/-- Effect of one operation on the `email_verification_tokens` table. -/
def applyVerificationOp (db : VerificationDB) : VerificationOp → VerificationDB
  | .create u now expiry tok id => (CreateVerificationToken db u now expiry tok id).2
  | .deleteToken id => DeleteVerificationToken db id
  | .deleteUser u => (DeleteUserVerificationTokens db u).2
  | .deleteExpired now => DeleteExpiredVerificationTokens db now

/-- A sequence of verification-table operations applied in order. -/
def applyVerificationOps (db : VerificationDB) (ops : List VerificationOp) :
    VerificationDB :=
  ops.foldl applyVerificationOp db

/-!
Two concurrent `RefreshAccessToken` invocations on the same token string.
Each SQL statement a run issues is one atomic step on the shared table; the
process state records how far the run has advanced. The pure access-token
mint between the revoke and the insert touches no shared state and is folded
into the insert step.
-/

/-- Program counter of one in-flight `RefreshAccessToken` run. `failed` covers
every error return of the service; the HTTP layer maps each of them to the
same 401 "invalid refresh token" response (api/auth_handler.go:424-427). -/
inductive Phase
  | start
  | gotToken
  | fetchedUser
  | revokedOld
  | failed
  | committed
  deriving Repr, DecidableEq

/-- One in-flight run: program counter, the refresh-token row fetched by its
lookup, and the uuid its `CreateRefreshToken` call will generate. -/
structure Proc where
  phase : Phase
  fetchedRow : Option RefreshTokenRow
  newToken : String
  deriving Repr, DecidableEq

/-- One atomic step of a run of `RefreshAccessToken` on the shared
`refresh_tokens` table, following services/jwt_service.go:153-227 statement by
statement: lookup (SQL-filtered on expiry), user load, delete of the old row,
insert of the new row. Terminal phases do not move. -/
def procStep (users : UserDB) (t : String) (now duration : Nat)
    (db : RefreshDB) (p : Proc) : RefreshDB × Proc :=
  match p.phase with
  | .start =>
    match GetRefreshToken db t now with
    | .ok (some r) => (db, { p with phase := .gotToken, fetchedRow := some r })
    | _ => (db, { p with phase := .failed })
  | .gotToken =>
    match p.fetchedRow with
    | some r =>
      match GetUserByID users r.userId with
      | some _ => (db, { p with phase := .fetchedUser })
      | none => (db, { p with phase := .failed })
    | none => (db, { p with phase := .failed })
  | .fetchedUser =>
    match RevokeRefreshToken db t with
    | .ok db' => (db', { p with phase := .revokedOld })
    | .error _ => (db, { p with phase := .failed })
  | .revokedOld =>
    match p.fetchedRow with
    | some r =>
      match CreateRefreshToken db p.newToken r.userId now duration
          r.ipAddress r.userAgent with
      | .ok (_, db') => (db', { p with phase := .committed })
      | .error _ => (db, { p with phase := .failed })
    | none => (db, { p with phase := .failed })
  | .failed => (db, p)
  | .committed => (db, p)

/-- The shared table plus the two racing runs. -/
structure TwoSys where
  db : RefreshDB
  A : Proc
  B : Proc
  deriving Repr, DecidableEq

/-- Scheduler step: `true` lets run A take its next atomic statement, `false`
lets run B. -/
def sysStep (users : UserDB) (t : String) (now duration : Nat)
    (s : TwoSys) (c : Bool) : TwoSys :=
  if c then
    let r := procStep users t now duration s.db s.A
    { db := r.1, A := r.2, B := s.B }
  else
    let r := procStep users t now duration s.db s.B
    { db := r.1, A := s.A, B := r.2 }

/-- Run an arbitrary interleaving of the two runs. -/
def sysRun (users : UserDB) (t : String) (now duration : Nat)
    (s : TwoSys) : List Bool → TwoSys
  | [] => s
  | c :: cs => sysRun users t now duration (sysStep users t now duration s c) cs

/-- A run has returned (successfully or with an error). -/
def terminal (p : Phase) : Bool :=
  p == .failed || p == .committed

/-- A run holds (or held) the deletion of the old row. -/
def winner (p : Proc) : Bool :=
  p.phase == .revokedOld || p.phase == .committed

/-- The HTTP response `AuthHandler.RefreshAccessToken` sends for a terminal
run: 200 "token refreshed" on success, 401 "invalid refresh token" for every
service error. -/
def refreshEndpointResponse (p : Phase) : Option Response :=
  match p with
  | .committed => some { status := 200, body := "token refreshed" }
  | .failed => some { status := 401, body := "invalid refresh token" }
  | _ => none

/-! Concrete fixtures used by counterexamples and witnesses. -/

/-- A live refresh token of user `u1`, expiring at 100. -/
def exRowOld : RefreshTokenRow :=
  { token := "rt-old", userId := "u1", expiresAt := 100, revoked := false,
    ipAddress := "203.0.113.7", userAgent := "cli" }

/-- A live refresh token of user `u2` whose token string the rotation's fresh
uuid collides with. -/
def exRowClash : RefreshTokenRow :=
  { token := "rt-clash", userId := "u2", expiresAt := 100, revoked := false,
    ipAddress := "203.0.113.8", userAgent := "cli" }

/-- An expired refresh token of user `u1`. -/
def exRowExpired : RefreshTokenRow :=
  { token := "rt-stale", userId := "u1", expiresAt := 40, revoked := false,
    ipAddress := "203.0.113.7", userAgent := "cli" }

/-- A registered user. -/
def exAlice : User :=
  { userId := "u1", username := "alice", email := "alice@example.com",
    passwordHash := bcryptHash "OldPass1!", firstName := "Alice",
    emailVerified := true }

/-- Claims of a token that expires at 100. -/
def exClaims : CustomClaims :=
  { userId := "u1", username := "alice", email := "alice@example.com",
    iat := 0, nbf := 0, exp := 100, issuer := "chefshare_api", subject := "u1" }

/-- An unused reset OTP of user `u1`, expiring at 950. -/
def exResetToken : PasswordResetToken :=
  { id := 1, userId := "u1", token := "123456", expiresAt := 950, used := false }

/-!
Inductive invariant for the two racing `RefreshAccessToken` runs (claim C2).
The ambient context fixes the initial single live row `r0` for token string
`t`, the token strings `toks` present initially, and the fresh uuids `na`,
`nb` the two runs will insert.
-/

/-- Facts about the race's fixed environment: the contested row is live and
owned by an existing user, and the two fresh uuids are distinct and unused. -/
structure RaceCtx (users : UserDB) (t : String) (now : Nat)
    (r0 : RefreshTokenRow) (toks : List String) (na nb : String) : Prop where
  rtok : r0.token = t
  rrev : r0.revoked = false
  rexp : now < r0.expiresAt
  huser : (GetUserByID users r0.userId).isSome
  hna : na ∉ toks
  hnb : nb ∉ toks
  hne : na ≠ nb
  ht : t ∈ toks

/-- The invariant every reachable race state satisfies: the contested row is
present exactly until a run wins the delete, at most one run ever wins, every
row's token string is accounted for, a run past its lookup holds the original
row, and a failed run implies the other run won. -/
structure RaceInv (t : String) (r0 : RefreshTokenRow) (toks : List String)
    (na nb : String) (s : TwoSys) : Prop where
  tRows : s.db.filter (fun r => r.token == t) =
      (if winner s.A || winner s.B then [] else [r0])
  notBoth : ¬(winner s.A = true ∧ winner s.B = true)
  tokensSub : ∀ r ∈ s.db, r.token ∈ toks ∨
      (s.A.phase = Phase.committed ∧ r.token = na) ∨
      (s.B.phase = Phase.committed ∧ r.token = nb)
  fetchedA : s.A.phase = Phase.gotToken ∨ s.A.phase = Phase.fetchedUser ∨
      s.A.phase = Phase.revokedOld ∨ s.A.phase = Phase.committed →
      s.A.fetchedRow = some r0
  fetchedB : s.B.phase = Phase.gotToken ∨ s.B.phase = Phase.fetchedUser ∨
      s.B.phase = Phase.revokedOld ∨ s.B.phase = Phase.committed →
      s.B.fetchedRow = some r0
  failA : s.A.phase = Phase.failed → winner s.B = true
  failB : s.B.phase = Phase.failed → winner s.A = true
  newA : s.A.newToken = na
  newB : s.B.newToken = nb

/-- Mirror a race state, exchanging the two runs. -/
def TwoSys.swap (s : TwoSys) : TwoSys :=
  { db := s.db, A := s.B, B := s.A }

/-- Initial race state: both runs about to execute their ledger lookup of the
same token, with fresh uuids `na` and `nb` for their eventual inserts. -/
def raceInit (db0 : RefreshDB) (fra frb : Option RefreshTokenRow)
    (na nb : String) : TwoSys :=
  { db := db0,
    A := { phase := Phase.start, fetchedRow := fra, newToken := na },
    B := { phase := Phase.start, fetchedRow := frb, newToken := nb } }

/-! Helper lemmas on list-backed tables. -/

theorem find?_and_eq_none {α : Type} (key P : α → Bool) (l : List α)
    (h : l.filter key = []) : l.find? (fun x => key x && P x) = none := by
  rw [List.find?_eq_none]
  intro x hx hpx
  have hkey : key x = true := (Bool.and_eq_true _ _ |>.mp hpx).1
  have : x ∈ l.filter key := List.mem_filter.mpr ⟨hx, hkey⟩
  rw [h] at this
  exact absurd this (List.not_mem_nil x)

theorem find?_and_eq_some {α : Type} (key P : α → Bool) (a : α) (hP : P a = true) :
    ∀ l : List α, l.filter key = [a] → l.find? (fun x => key x && P x) = some a := by
  intro l
  induction l with
  | nil => intro h; exact absurd h (by simp)
  | cons hd tl ih =>
    intro hl
    by_cases hk : key hd
    · rw [List.filter_cons_of_pos hk] at hl
      obtain ⟨rfl, htl⟩ := List.cons_eq_cons.mp hl
      simp [List.find?_cons, hk, hP]
    · rw [List.filter_cons_of_neg (by simpa using hk)] at hl
      have : (fun x => key x && P x) hd = false := by
        simp only [Bool.and_eq_false_iff]
        exact Or.inl (by simpa using hk)
      simp [List.find?_cons, this]
      exact ih hl

theorem length_filter_not_add {α : Type} (p : α → Bool) (l : List α) :
    (l.filter (fun x => !(p x))).length + (l.filter p).length = l.length := by
  induction l with
  | nil => rfl
  | cons hd tl ih =>
    by_cases hp : p hd <;> simp [List.filter_cons, hp] <;> omega

theorem revoke_of_filter_nil (db : RefreshDB) (t : String)
    (h : db.filter (fun r => r.token == t) = []) :
    RevokeRefreshToken db t = .error "token not found" := by
  have hself : db.filter (fun r => r.token != t) = db := by
    rw [List.filter_eq_self]
    intro r hr
    simp only [bne_iff_ne, ne_eq]
    intro heq
    have : r ∈ db.filter (fun r => r.token == t) :=
      List.mem_filter.mpr ⟨hr, by simp [heq]⟩
    rw [h] at this
    exact absurd this (List.not_mem_nil r)
  unfold RevokeRefreshToken
  simp [hself]

theorem revoke_of_filter_single (db : RefreshDB) (t : String) (r0 : RefreshTokenRow)
    (h : db.filter (fun r => r.token == t) = [r0]) :
    RevokeRefreshToken db t = .ok (db.filter (fun r => r.token != t)) := by
  have hlen := length_filter_not_add (fun r => r.token == t) db
  rw [h] at hlen
  have hlen' : (db.filter (fun r => r.token != t)).length + 1 = db.length := by
    have heq : db.filter (fun r => r.token != t) =
        db.filter (fun x => !(x.token == t)) := by
      simp only [bne]
    rw [heq]
    simpa using hlen
  have hne : ((db.filter (fun r => r.token != t)).length == db.length) = false := by
    simp only [beq_eq_false_iff_ne, ne_eq]
    omega
  unfold RevokeRefreshToken
  simp only [hne, Bool.false_eq_true, if_false]

theorem getRefreshToken_of_filter_nil (db : RefreshDB) (t : String) (now : Nat)
    (h : db.filter (fun r => r.token == t) = []) :
    GetRefreshToken db t now = .ok none := by
  unfold GetRefreshToken
  rw [find?_and_eq_none (fun r => r.token == t) (fun r => decide (now < r.expiresAt)) db h]

theorem getRefreshToken_of_filter_single (db : RefreshDB) (t : String) (now : Nat)
    (r0 : RefreshTokenRow) (hrev : r0.revoked = false) (hexp : now < r0.expiresAt)
    (h : db.filter (fun r => r.token == t) = [r0]) :
    GetRefreshToken db t now = .ok (some r0) := by
  unfold GetRefreshToken
  rw [find?_and_eq_some (fun r => r.token == t) (fun r => decide (now < r.expiresAt)) r0
    (by simpa using hexp) db h]
  simp [hrev]

/-- C1: the claim says the whole lookup-revoke-reissue sequence of
`RefreshAccessToken` runs in one transaction, so that on any error return the
old refresh token is still present. In the code the opened transaction never
has a statement executed on it — `RevokeRefreshToken` and
`CreateRefreshToken` run autocommitted on `s.db` — so when the insert of the
new token fails (here: its fresh token string collides with an existing row,
violating the `UNIQUE` constraint) the call returns an error while the old
refresh token has already been deleted and stays deleted. -/
theorem C1_rotation_error_leaves_old_token_deleted :
    (RefreshAccessToken [exAlice] [exRowOld, exRowClash] "rt-old" 50 900 604800
        "secret" "rt-clash").result = .error "failed to create new refresh token" ∧
    (RefreshAccessToken [exAlice] [exRowOld, exRowClash] "rt-old" 50 900 604800
        "secret" "rt-clash").db = [exRowClash] ∧
    GetRefreshToken (RefreshAccessToken [exAlice] [exRowOld, exRowClash] "rt-old" 50 900
        604800 "secret" "rt-clash").db "rt-old" 50 = .ok none :=
  ⟨rfl, rfl, rfl⟩

/-- C8: an expired refresh token is treated identically to a nonexistent one:
when every row carrying the presented token string is past its expiry (which
covers a token that never existed, one whose row was deleted by revocation,
and one whose `expires_at` has passed), the ledger lookup itself returns
no row and `RefreshAccessToken` fails with the invalid-token error. -/
theorem C8_expired_token_treated_as_nonexistent (users : UserDB) (db : RefreshDB)
    (t : String) (now accessDuration refreshDuration : Nat) (secret newToken : String)
    (h : ∀ r ∈ db, r.token = t → r.expiresAt ≤ now) :
    GetRefreshToken db t now = .ok none ∧
    RefreshAccessToken users db t now accessDuration refreshDuration secret newToken =
      { result := .error "invalid refresh token", db := db } := by
  have hfind : db.find? (fun r => r.token == t && decide (now < r.expiresAt)) = none := by
    rw [List.find?_eq_none]
    intro r hr hpr
    obtain ⟨h1, h2⟩ := (Bool.and_eq_true _ _).mp hpr
    have hle : r.expiresAt ≤ now := h r hr (by simpa using h1)
    simp only [decide_eq_true_eq] at h2
    omega
  have hget : GetRefreshToken db t now = .ok none := by
    unfold GetRefreshToken
    rw [hfind]
  refine ⟨hget, ?_⟩
  unfold RefreshAccessToken
  rw [hget]

/-- Witness for C8 at a concrete ledger: the presented token exists only as an
expired row. -/
theorem C8_expired_token_witness :
    GetRefreshToken [exRowExpired] "rt-stale" 50 = .ok none ∧
    RefreshAccessToken [exAlice] [exRowExpired] "rt-stale" 50 900 604800 "secret"
        "rt-new" = { result := .error "invalid refresh token", db := [exRowExpired] } :=
  C8_expired_token_treated_as_nonexistent [exAlice] [exRowExpired] "rt-stale" 50 900
    604800 "secret" "rt-new" (by decide)

/-- C9: the logout endpoint answers 200 with a success-shaped body for every
bound request, whether the presented refresh token is empty, unknown, already
revoked, or live; a revocation error is only logged. -/
theorem C9_logout_always_succeeds (db : RefreshDB) (s : String) :
    (LogoutUser db (LogoutRequest.withToken s)).response.status = 200 ∧
    ((LogoutUser db (LogoutRequest.withToken s)).response.body = "no active session" ∨
      (LogoutUser db (LogoutRequest.withToken s)).response.body = "logout successful") := by
  unfold LogoutUser
  by_cases hs : (s == "") = true
  · simp [hs]
  · cases hrv : RevokeRefreshToken db s <;> simp [hs, hrv]

/-- C10: `BlacklistToken` inserts with `ON CONFLICT (token) DO NOTHING`:
re-blacklisting an already-present token leaves the table unchanged and does
not error (the call is total), the second of two identical blacklist calls is
a no-op, and the table never accumulates more than one row per token. -/
theorem C10_blacklist_insert_idempotent :
    (∀ (db : BlacklistDB) (t : TokenStr) (e : Nat),
        db.any (fun r => r.token == t) = true → BlacklistToken db t e = db) ∧
    (∀ (db : BlacklistDB) (t : TokenStr) (e e2 : Nat),
        BlacklistToken (BlacklistToken db t e) t e2 = BlacklistToken db t e) ∧
    (∀ (db : BlacklistDB) (t s : TokenStr) (e : Nat),
        (db.filter (fun r => r.token == s)).length ≤ 1 →
        ((BlacklistToken db t e).filter (fun r => r.token == s)).length ≤ 1) := by
  refine ⟨?_, ?_, ?_⟩
  · intro db t e h
    unfold BlacklistToken
    simp [h]
  · intro db t e e2
    by_cases h : db.any (fun r => r.token == t) = true
    · have h1 : BlacklistToken db t e = db := by unfold BlacklistToken; simp [h]
      rw [h1]
      unfold BlacklistToken
      simp [h]
    · have hfalse : db.any (fun r => r.token == t) = false := by
        simpa using h
      have h1 : BlacklistToken db t e = db ++ [{ token := t, expiresAt := e }] := by
        unfold BlacklistToken
        simp [hfalse]
      have h2 : ((db ++ [({ token := t, expiresAt := e } : BlacklistedToken)]).any
          (fun r => r.token == t)) = true := by
        simp [List.any_append]
      rw [h1]
      unfold BlacklistToken
      simp [h2]
  · intro db t s e hle
    by_cases h : db.any (fun r => r.token == t) = true
    · have h1 : BlacklistToken db t e = db := by unfold BlacklistToken; simp [h]
      rw [h1]
      exact hle
    · have hfalse : db.any (fun r => r.token == t) = false := by
        simpa using h
      have h1 : BlacklistToken db t e =
          db ++ [({ token := t, expiresAt := e } : BlacklistedToken)] := by
        unfold BlacklistToken
        simp [hfalse]
      rw [h1, List.filter_append]
      by_cases hts : t = s
      · subst hts
        have hnil : db.filter (fun r => r.token == t) = [] := by
          rw [List.filter_eq_nil_iff]
          intro r hr hp
          exact (List.any_eq_false.mp hfalse r hr) hp
        rw [hnil]
        simp
      · have hrow : ((({ token := t, expiresAt := e } : BlacklistedToken)).token == s)
            = false := by
          simpa using hts
        simp only [List.filter_cons, hrow, Bool.false_eq_true, if_false,
          List.filter_nil, List.append_nil]
        exact hle

/-- Witness for C10 at a concrete table. -/
theorem C10_blacklist_insert_idempotent_witness :
    BlacklistToken [{ token := TokenStr.malformed "x", expiresAt := 10 }]
        (TokenStr.malformed "x") 99 =
      [{ token := TokenStr.malformed "x", expiresAt := 10 }] ∧
    ((BlacklistToken [] (TokenStr.malformed "x") 10).filter
        (fun r => r.token == TokenStr.malformed "x")).length ≤ 1 :=
  ⟨C10_blacklist_insert_idempotent.1 _ _ 99 (by decide),
   C10_blacklist_insert_idempotent.2.2 [] _ _ 10 (by decide)⟩

/-- C3 counterexample: the claim says the three rejection cases of
`ValidateAccessToken` return an error that does not reveal which condition
fired. At concrete inputs the three errors are pairwise distinct: a wrong
secret yields the wrapped signature error, a past `exp` yields the wrapped
expiry error, and a blacklisted token yields "token is revoked". -/
theorem C3_counterexample_errors_distinguish :
    ValidateAccessToken [] (TokenStr.jwt SigAlg.HS256 exClaims "wrong-secret")
        "secret" 50 = .error "invalid token: token signature is invalid" ∧
    ValidateAccessToken [] (TokenStr.jwt SigAlg.HS256 { exClaims with exp := 40 }
        "secret") "secret" 50 =
      .error "invalid token: token has invalid claims: token is expired" ∧
    ValidateAccessToken
        (BlacklistAccessToken [] (TokenStr.jwt SigAlg.HS256 exClaims "secret")
          "secret" 50)
        (TokenStr.jwt SigAlg.HS256 exClaims "secret") "secret" 50 =
      .error "token is revoked" ∧
    "invalid token: token signature is invalid" ≠ "token is revoked" ∧
    "invalid token: token has invalid claims: token is expired" ≠ "token is revoked" ∧
    "invalid token: token signature is invalid" ≠
      "invalid token: token has invalid claims: token is expired" :=
  ⟨rfl, rfl, rfl, by decide, by decide, by decide⟩

/-- C3 amended: `ValidateAccessToken` does reject all three cases — a token
signed with another secret, a token with past `exp`, and a blacklisted token —
but the errors distinguish the cases: the blacklist check fires first with
"token is revoked", and the parse failures are wrapped library errors that
differ between bad signature and expiry. -/
theorem C3_amended_rejections (bl : BlacklistDB) (c : CustomClaims)
    (w secret : String) (now : Nat) :
    (∀ tok : TokenStr, IsBlacklisted bl tok now = true →
        ValidateAccessToken bl tok secret now = .error "token is revoked") ∧
    (IsBlacklisted bl (TokenStr.jwt SigAlg.HS256 c w) now = false → w ≠ secret →
        ValidateAccessToken bl (TokenStr.jwt SigAlg.HS256 c w) secret now =
          .error "invalid token: token signature is invalid") ∧
    (IsBlacklisted bl (TokenStr.jwt SigAlg.HS256 c secret) now = false →
        c.exp ≤ now →
        ValidateAccessToken bl (TokenStr.jwt SigAlg.HS256 c secret) secret now =
          .error "invalid token: token has invalid claims: token is expired") := by
  refine ⟨?_, ?_, ?_⟩
  · intro tok h
    unfold ValidateAccessToken
    simp [h]
  · intro hbl hw
    unfold ValidateAccessToken jwtParseWithClaims
    simp [hbl, hw]
  · intro hbl hexp
    unfold ValidateAccessToken jwtParseWithClaims
    simp [hbl, hexp]

/-- Witness for C3's amended theorem at concrete tokens. -/
theorem C3_amended_rejections_witness :
    ValidateAccessToken [{ token := TokenStr.malformed "x", expiresAt := 90 }]
        (TokenStr.malformed "x") "secret" 50 = .error "token is revoked" ∧
    ValidateAccessToken [] (TokenStr.jwt SigAlg.HS256 exClaims "wrong-secret")
        "secret" 50 = .error "invalid token: token signature is invalid" ∧
    ValidateAccessToken [] (TokenStr.jwt SigAlg.HS256 { exClaims with exp := 40 }
        "secret") "secret" 50 =
      .error "invalid token: token has invalid claims: token is expired" :=
  ⟨(C3_amended_rejections [{ token := TokenStr.malformed "x", expiresAt := 90 }]
      exClaims "wrong-secret" "secret" 50).1 (TokenStr.malformed "x") (by decide),
   (C3_amended_rejections [] exClaims "wrong-secret" "secret" 50).2.1 (by decide)
     (by decide),
   (C3_amended_rejections [] { exClaims with exp := 40 } "wrong-secret" "secret"
      50).2.2 (by decide) (by decide)⟩

/-- C4 counterexample: the claim says the password update and the
revocation of all refresh tokens commit atomically (both or neither). At a
concrete input where the revocation DELETE fails, the handler still answers
200 and the password digest is updated while the user's refresh token
survives: one effect committed without the other. (The handler's store calls
autocommit on the raw connection; the opened transaction carries no
statements, and a revocation error is explicitly swallowed.) -/
theorem C4_counterexample_password_committed_without_revocation :
    (UpdatePasswordHandler [exAlice] [exRowOld] "u1" "OldPass1!" "NewPass1!"
        true).response = { status := 200, body := "password updated successfully" } ∧
    (UpdatePasswordHandler [exAlice] [exRowOld] "u1" "OldPass1!" "NewPass1!"
        true).users = [{ exAlice with passwordHash := bcryptHash "NewPass1!" }] ∧
    (UpdatePasswordHandler [exAlice] [exRowOld] "u1" "OldPass1!" "NewPass1!"
        true).refresh = [exRowOld] :=
  ⟨rfl, rfl, rfl⟩

/-- C4 amended: after the current-password, strength and difference checks
pass, the handler applies the password update and the revoke-all as two
separate autocommitted statements: the response is 200 and the digest is
updated in every case, the refresh tokens are deleted when the revocation
statement succeeds, and they are left untouched (with the response still 200)
when it fails — the pair is sequential best-effort, not atomic. -/
theorem C4_amended_sequential_not_atomic (users : UserDB) (refresh : RefreshDB)
    (userId cur newPw : String) (user : User)
    (hu : GetUserByID users userId = some user)
    (hcp : CheckPassword user.passwordHash cur = true)
    (hlen : ¬(newPw.length < 8)) (hsym : ContainsNumberAndSymbol newPw = true)
    (hne : cur ≠ newPw) :
    (∀ revokeStoreFails : Bool,
      (UpdatePasswordHandler users refresh userId cur newPw revokeStoreFails).response =
        { status := 200, body := "password updated successfully" } ∧
      (UpdatePasswordHandler users refresh userId cur newPw revokeStoreFails).users =
        UpdatePasswordStore users userId newPw) ∧
    (UpdatePasswordHandler users refresh userId cur newPw false).refresh =
      (RevokeAllUserRefreshTokens refresh userId).2 ∧
    (UpdatePasswordHandler users refresh userId cur newPw true).refresh = refresh := by
  have hmain : ∀ revokeStoreFails : Bool,
      UpdatePasswordHandler users refresh userId cur newPw revokeStoreFails =
        { response := { status := 200, body := "password updated successfully" },
          users := UpdatePasswordStore users userId newPw,
          refresh := if revokeStoreFails then refresh
            else (RevokeAllUserRefreshTokens refresh userId).2 } := by
    intro fails
    unfold UpdatePasswordHandler
    rw [hu]
    simp [hcp, hlen, hsym, hne]
  refine ⟨fun fails => ⟨by rw [hmain fails], by rw [hmain fails]⟩, ?_, ?_⟩
  · rw [hmain false]
    simp
  · rw [hmain true]
    simp

/-- Witness for C4's amended theorem: the success path applies both effects. -/
theorem C4_amended_sequential_not_atomic_witness :
    (UpdatePasswordHandler [exAlice] [exRowOld] "u1" "OldPass1!" "NewPass1!"
        false).response = { status := 200, body := "password updated successfully" } ∧
    (UpdatePasswordHandler [exAlice] [exRowOld] "u1" "OldPass1!" "NewPass1!"
        false).users = UpdatePasswordStore [exAlice] "u1" "NewPass1!" :=
  (C4_amended_sequential_not_atomic [exAlice] [exRowOld] "u1" "OldPass1!" "NewPass1!"
    exAlice (by decide) (by decide) (by decide) (by decide) (by decide)).1 false

/-- C7: the password-reset request endpoint is anti-enumerating: for any
well-formed email, when no user carries it the endpoint answers the same
200 generic message while creating no reset code and dispatching no email,
and when a user does carry it the response is that same message — the two
runs are indistinguishable from the response. -/
theorem C7_reset_request_anti_enumeration (users : UserDB) (resetDB : ResetDB)
    (email : String) (now : Nat) (newOtp : String) (newId : Nat)
    (hv : IsValidEmail (normalizeEmail email) = true) :
    (GetUserByEmail users (normalizeEmail email) = none →
      RequestPasswordReset users resetDB email true now newOtp newId =
        { response := { status := 200, body := resetRequestMessage },
          resetDB := resetDB, emailsSent := [] }) ∧
    (∀ user : User, GetUserByEmail users (normalizeEmail email) = some user →
      (RequestPasswordReset users resetDB email true now newOtp newId).response =
        { status := 200, body := resetRequestMessage }) := by
  constructor
  · intro h
    unfold RequestPasswordReset
    simp only [hv, Bool.not_true, Bool.false_eq_true, if_false, Bool.not_false,
      if_true, h]
  · intro user h
    unfold RequestPasswordReset
    simp only [hv, Bool.not_true, Bool.false_eq_true, if_false, Bool.not_false,
      if_true, h]

/-- Witness for C7: `nobody@example.com` is unregistered, `alice@example.com`
is registered; both get the identical generic response. -/
theorem C7_reset_request_anti_enumeration_witness :
    RequestPasswordReset [exAlice] [] "nobody@example.com" true 50 "123456" 1 =
      { response := { status := 200, body := resetRequestMessage },
        resetDB := [], emailsSent := [] } ∧
    (RequestPasswordReset [exAlice] [] "alice@example.com" true 50 "123456" 1).response =
      { status := 200, body := resetRequestMessage } :=
  ⟨(C7_reset_request_anti_enumeration [exAlice] [] "nobody@example.com" 50 "123456" 1
      (by decide)).1 (by decide),
   (C7_reset_request_anti_enumeration [exAlice] [] "alice@example.com" 50 "123456" 1
      (by decide)).2 exAlice (by decide)⟩

theorem find?_map_key {α : Type} (g : α → α) (p : α → Bool)
    (hp : ∀ x, p (g x) = p x) (l : List α) :
    (l.map g).find? p = Option.map g (l.find? p) := by
  rw [List.find?_map]
  have : (p ∘ g) = p := funext hp
  rw [this]

/-- C5: password-reset OTPs are single-use and rejection is uniform. Part one
and two: whatever the reason — no row carries the presented code, the code
belongs to another user, it is already marked used, or it is past expiry —
the confirm endpoint answers the one `invalid or expired OTP` response. Part
three: after a successful confirm consumes code C, a second confirm with the
same C (at any later instant, in particular before C's expiry) gets the same
uniform rejection, because the committed transaction marked C used. -/
theorem C5_otp_single_use_uniform_rejection :
    (∀ (users : UserDB) (resetDB : ResetDB) (refresh : RefreshDB)
        (email otp pw : String) (now : Nat) (fails : Bool) (user : User),
      IsValidEmail (normalizeEmail email) = true →
      (trimSpace otp).length = 6 → IsNumeric (trimSpace otp) = true →
      ¬(pw.length < 8) → ContainsNumberAndSymbol pw = true →
      GetUserByEmail users (normalizeEmail email) = some user →
      GetPasswordResetTokenByToken resetDB (trimSpace otp) = none →
      (VerifyOTPAndResetPassword users resetDB refresh email otp pw true now
        fails).response = invalidOtpResponse) ∧
    (∀ (users : UserDB) (resetDB : ResetDB) (refresh : RefreshDB)
        (email otp pw : String) (now : Nat) (fails : Bool) (user : User)
        (tk : PasswordResetToken),
      IsValidEmail (normalizeEmail email) = true →
      (trimSpace otp).length = 6 → IsNumeric (trimSpace otp) = true →
      ¬(pw.length < 8) → ContainsNumberAndSymbol pw = true →
      GetUserByEmail users (normalizeEmail email) = some user →
      GetPasswordResetTokenByToken resetDB (trimSpace otp) = some tk →
      (tk.userId ≠ user.userId ∨ tk.used = true ∨ tk.expiresAt < now) →
      (VerifyOTPAndResetPassword users resetDB refresh email otp pw true now
        fails).response = invalidOtpResponse) ∧
    (∀ (users : UserDB) (resetDB : ResetDB) (refresh : RefreshDB)
        (email otp pw1 pw2 : String) (now1 now2 : Nat) (fails1 fails2 : Bool)
        (user : User) (tk : PasswordResetToken),
      IsValidEmail (normalizeEmail email) = true →
      (trimSpace otp).length = 6 → IsNumeric (trimSpace otp) = true →
      ¬(pw1.length < 8) → ContainsNumberAndSymbol pw1 = true →
      ¬(pw2.length < 8) → ContainsNumberAndSymbol pw2 = true →
      GetUserByEmail users (normalizeEmail email) = some user →
      GetPasswordResetTokenByToken resetDB (trimSpace otp) = some tk →
      tk.userId = user.userId → tk.used = false → ¬(tk.expiresAt < now1) →
      (VerifyOTPAndResetPassword users resetDB refresh email otp pw1 true now1
        fails1).response.status = 200 ∧
      (VerifyOTPAndResetPassword
        (VerifyOTPAndResetPassword users resetDB refresh email otp pw1 true now1
          fails1).users
        (VerifyOTPAndResetPassword users resetDB refresh email otp pw1 true now1
          fails1).resetDB
        (VerifyOTPAndResetPassword users resetDB refresh email otp pw1 true now1
          fails1).refresh
        email otp pw2 true now2 fails2).response = invalidOtpResponse) := by
  refine ⟨?_, ?_, ?_⟩
  · intro users resetDB refresh email otp pw now fails user hv ho6 hon hp hps hu hlk
    unfold VerifyOTPAndResetPassword
    simp [hv, ho6, hon, hp, hps, hu, hlk]
  · intro users resetDB refresh email otp pw now fails user tk hv ho6 hon hp hps hu
      hlk hcond
    unfold VerifyOTPAndResetPassword
    rcases hcond with h | h | h
    · simp [hv, ho6, hon, hp, hps, hu, hlk, h]
    · simp [hv, ho6, hon, hp, hps, hu, hlk, h]
    · simp [hv, ho6, hon, hp, hps, hu, hlk, h]
  · intro users resetDB refresh email otp pw1 pw2 now1 now2 fails1 fails2 user tk
      hv ho6 hon hp1 hps1 hp2 hps2 hu hlk htuid htused htexp
    have hR1 : VerifyOTPAndResetPassword users resetDB refresh email otp pw1 true
        now1 fails1 =
        { response := { status := 200, body := "password reset successful" },
          users := (ResetPasswordTransaction users resetDB tk.id user.userId pw1).1,
          resetDB := (ResetPasswordTransaction users resetDB tk.id user.userId pw1).2,
          refresh := if fails1 then refresh
            else (RevokeAllUserRefreshTokens refresh user.userId).2 } := by
      unfold VerifyOTPAndResetPassword
      simp [hv, ho6, hon, hp1, hps1, hu, hlk, htuid, htused, htexp]
    have hu2 : GetUserByEmail
        (ResetPasswordTransaction users resetDB tk.id user.userId pw1).1
        (normalizeEmail email) =
        some (if user.userId == user.userId then
          { user with passwordHash := bcryptHash pw1 } else user) := by
      unfold ResetPasswordTransaction GetUserByEmail
      rw [find?_map_key]
      · unfold GetUserByEmail at hu
        rw [hu]
        rfl
      · intro u
        by_cases h : (u.userId == user.userId) = true <;> simp [h]
    have hlk2 : GetPasswordResetTokenByToken
        (ResetPasswordTransaction users resetDB tk.id user.userId pw1).2
        (trimSpace otp) = some { tk with used := true } := by
      unfold ResetPasswordTransaction MarkTokenAsUsed GetPasswordResetTokenByToken
      rw [find?_map_key]
      · unfold GetPasswordResetTokenByToken at hlk
        rw [hlk]
        simp
      · intro r
        by_cases h : (r.id == tk.id) = true <;> simp [h]
    constructor
    · rw [hR1]
    · rw [hR1]
      unfold VerifyOTPAndResetPassword
      simp only [hv, hu2, hlk2]
      simp [ho6, hon, hp2, hps2]

/-- Witness for C5: alice consumes code 123456 at instant 50; the replay at
instant 60, well before the code's expiry 950, is rejected uniformly. -/
theorem C5_otp_single_use_witness :
    (VerifyOTPAndResetPassword [exAlice] [exResetToken] [exRowOld]
        "alice@example.com" "123456" "NewPass1!" true 50 false).response.status
      = 200 ∧
    (VerifyOTPAndResetPassword
      (VerifyOTPAndResetPassword [exAlice] [exResetToken] [exRowOld]
        "alice@example.com" "123456" "NewPass1!" true 50 false).users
      (VerifyOTPAndResetPassword [exAlice] [exResetToken] [exRowOld]
        "alice@example.com" "123456" "NewPass1!" true 50 false).resetDB
      (VerifyOTPAndResetPassword [exAlice] [exResetToken] [exRowOld]
        "alice@example.com" "123456" "NewPass1!" true 50 false).refresh
      "alice@example.com" "123456" "OtherPass2@" true 60 false).response
      = invalidOtpResponse :=
  C5_otp_single_use_uniform_rejection.2.2 [exAlice] [exResetToken] [exRowOld]
    "alice@example.com" "123456" "NewPass1!" "OtherPass2@" 50 60 false false
    exAlice exResetToken (by decide) (by decide) (by decide) (by decide)
    (by decide) (by decide) (by decide) (by decide) (by decide) (by decide)
    (by decide) (by decide)

theorem length_filter_of_filter_le {α : Type} (p q : α → Bool) (l : List α) :
    ((l.filter q).filter p).length ≤ (l.filter p).length := by
  rw [List.filter_comm]
  exact List.length_filter_le q (l.filter p)

theorem length_filter_map_key {α : Type} (g : α → α) (p : α → Bool)
    (hp : ∀ x, p (g x) = p x) (l : List α) :
    ((l.map g).filter p).length = (l.filter p).length := by
  rw [List.filter_map]
  have : (p ∘ g) = p := funext hp
  rw [this, List.length_map]

theorem find?_append_none {α : Type} (p : α → Bool) (l1 l2 : List α)
    (h : l1.find? p = none) : (l1 ++ l2).find? p = l2.find? p := by
  induction l1 with
  | nil => rfl
  | cons hd tl ih =>
    simp only [List.cons_append, List.find?] at h ⊢
    cases hp : p hd with
    | true => simp [hp] at h
    | false =>
      simp only [hp] at h ⊢
      exact ih h

/-- One reset-table operation keeps the per-user row count at most one. -/
theorem applyResetOp_at_most_one (db : ResetDB) (op : ResetOp)
    (h : ∀ u : String, (db.filter (fun r => r.userId == u)).length ≤ 1) :
    ∀ u : String, ((applyResetOp db op).filter (fun r => r.userId == u)).length ≤ 1 := by
  intro u
  cases op with
  | create u' now expiry tok id =>
    simp only [applyResetOp, CreatePasswordResetToken, DeleteUserResetTokens]
    rw [List.filter_append, List.length_append]
    by_cases hu : u' = u
    · subst hu
      have h1 : (db.filter (fun r => r.userId != u')).filter
          (fun r => r.userId == u') = [] := by
        rw [List.filter_eq_nil_iff]
        intro r hr hru
        have hne := (List.mem_filter.mp hr).2
        rw [bne_iff_ne] at hne
        exact hne (by simpa using hru)
      rw [h1]
      simp
    · have h2 : (List.filter (fun r => r.userId == u)
          [({ id := id, userId := u', token := tok, expiresAt := now + expiry,
              used := false } : PasswordResetToken)]) = [] := by
        simp [hu]
      rw [h2]
      simp only [List.length_nil, Nat.add_zero]
      exact le_trans (length_filter_of_filter_le _ _ db) (h u)
  | markUsed id =>
    simp only [applyResetOp, MarkTokenAsUsed]
    rw [length_filter_map_key]
    · exact h u
    · intro r
      by_cases hid : (r.id == id) = true <;> simp [hid]
  | deleteExpired now =>
    simp only [applyResetOp, DeleteExpiredResetTokens]
    exact le_trans (length_filter_of_filter_le _ _ db) (h u)
  | deleteUser u' =>
    simp only [applyResetOp, DeleteUserResetTokens]
    exact le_trans (length_filter_of_filter_le _ _ db) (h u)
  | resetTransaction id =>
    simp only [applyResetOp, MarkTokenAsUsed]
    rw [length_filter_map_key]
    · exact h u
    · intro r
      by_cases hid : (r.id == id) = true <;> simp [hid]

/-- One verification-table operation keeps the per-user row count at most
one. -/
theorem applyVerificationOp_at_most_one (db : VerificationDB) (op : VerificationOp)
    (h : ∀ u : String, (db.filter (fun r => r.userId == u)).length ≤ 1) :
    ∀ u : String,
      ((applyVerificationOp db op).filter (fun r => r.userId == u)).length ≤ 1 := by
  intro u
  cases op with
  | create u' now expiry tok id =>
    simp only [applyVerificationOp, CreateVerificationToken,
      DeleteUserVerificationTokens]
    rw [List.filter_append, List.length_append]
    by_cases hu : u' = u
    · subst hu
      have h1 : (db.filter (fun r => r.userId != u')).filter
          (fun r => r.userId == u') = [] := by
        rw [List.filter_eq_nil_iff]
        intro r hr hru
        have hne := (List.mem_filter.mp hr).2
        rw [bne_iff_ne] at hne
        exact hne (by simpa using hru)
      rw [h1]
      simp
    · have h2 : (List.filter (fun r => r.userId == u)
          [({ id := id, userId := u', token := tok, expiresAt := now + expiry }
            : EmailVerificationToken)]) = [] := by
        simp [hu]
      rw [h2]
      simp only [List.length_nil, Nat.add_zero]
      exact le_trans (length_filter_of_filter_le _ _ db) (h u)
  | deleteToken id =>
    simp only [applyVerificationOp, DeleteVerificationToken]
    exact le_trans (length_filter_of_filter_le _ _ db) (h u)
  | deleteUser u' =>
    simp only [applyVerificationOp, DeleteUserVerificationTokens]
    exact le_trans (length_filter_of_filter_le _ _ db) (h u)
  | deleteExpired now =>
    simp only [applyVerificationOp, DeleteExpiredVerificationTokens]
    exact le_trans (length_filter_of_filter_le _ _ db) (h u)

theorem applyResetOps_at_most_one (ops : List ResetOp) :
    ∀ db : ResetDB, (∀ u : String, (db.filter (fun r => r.userId == u)).length ≤ 1) →
      ∀ u : String, ((applyResetOps db ops).filter (fun r => r.userId == u)).length ≤ 1 := by
  induction ops with
  | nil => intro db h; exact h
  | cons op rest ih =>
    intro db h
    simp only [applyResetOps, List.foldl_cons]
    exact ih (applyResetOp db op) (applyResetOp_at_most_one db op h)

theorem applyVerificationOps_at_most_one (ops : List VerificationOp) :
    ∀ db : VerificationDB,
      (∀ u : String, (db.filter (fun r => r.userId == u)).length ≤ 1) →
      ∀ u : String,
        ((applyVerificationOps db ops).filter (fun r => r.userId == u)).length ≤ 1 := by
  induction ops with
  | nil => intro db h; exact h
  | cons op rest ih =>
    intro db h
    simp only [applyVerificationOps, List.foldl_cons]
    exact ih (applyVerificationOp db op) (applyVerificationOp_at_most_one db op h)

/-- C6: both CreateCode operations delete every prior code of their kind for
the user before inserting (delete-then-insert by definition), so starting
from an empty table any sequence of repository operations leaves at most one
code per user per kind; and after two consecutive creations for the same
user, the first code value no longer resolves while the second does. -/
theorem C6_at_most_one_live_code :
    (∀ (ops : List ResetOp) (u : String),
      ((applyResetOps [] ops).filter (fun r => r.userId == u)).length ≤ 1) ∧
    (∀ (ops : List VerificationOp) (u : String),
      ((applyVerificationOps [] ops).filter (fun r => r.userId == u)).length ≤ 1) ∧
    (∀ (db : ResetDB) (u t1 t2 : String) (n1 e1 i1 n2 e2 i2 : Nat),
      (∀ r ∈ db, r.token ≠ t1) → (∀ r ∈ db, r.token ≠ t2) → t1 ≠ t2 →
      GetPasswordResetTokenByToken
        ((CreatePasswordResetToken
          ((CreatePasswordResetToken db u n1 e1 t1 i1).2) u n2 e2 t2 i2).2) t1
        = none ∧
      GetPasswordResetTokenByToken
        ((CreatePasswordResetToken
          ((CreatePasswordResetToken db u n1 e1 t1 i1).2) u n2 e2 t2 i2).2) t2
        = some { id := i2, userId := u, token := t2, expiresAt := n2 + e2,
                 used := false }) := by
  refine ⟨?_, ?_, ?_⟩
  · intro ops u
    exact applyResetOps_at_most_one ops [] (by intro u'; simp) u
  · intro ops u
    exact applyVerificationOps_at_most_one ops [] (by intro u'; simp) u
  · intro db u t1 t2 n1 e1 i1 n2 e2 i2 h1 h2 hne
    have hdb2 : (CreatePasswordResetToken
        ((CreatePasswordResetToken db u n1 e1 t1 i1).2) u n2 e2 t2 i2).2 =
        ((((db.filter (fun r => r.userId != u)) ++
          [({ id := i1, userId := u, token := t1, expiresAt := n1 + e1,
              used := false } : PasswordResetToken)]).filter
            (fun r => r.userId != u)) ++
          [({ id := i2, userId := u, token := t2, expiresAt := n2 + e2,
              used := false } : PasswordResetToken)]) := by
      simp only [CreatePasswordResetToken, DeleteUserResetTokens]
    have hmem : ∀ r ∈ (((db.filter (fun r => r.userId != u)) ++
        [({ id := i1, userId := u, token := t1, expiresAt := n1 + e1,
            used := false } : PasswordResetToken)]).filter
          (fun r => r.userId != u)), r ∈ db := by
      intro r hr
      have hr1 := (List.mem_filter.mp hr).1
      have hr2 := (List.mem_filter.mp hr).2
      rcases List.mem_append.mp hr1 with hcase | hcase
      · exact (List.mem_filter.mp hcase).1
      · exfalso
        have hre : r = ({ id := i1, userId := u, token := t1, expiresAt := n1 + e1, used := false } : PasswordResetToken) := by
          simpa using hcase
        rw [hre] at hr2
        simp at hr2
    constructor
    · rw [hdb2]
      unfold GetPasswordResetTokenByToken
      rw [List.find?_eq_none]
      intro r hr hp
      rcases List.mem_append.mp hr with hcase | hcase
      · exact h1 r (hmem r hcase) (by simpa using hp)
      · have hre : r = ({ id := i2, userId := u, token := t2, expiresAt := n2 + e2, used := false } : PasswordResetToken) := by
          simpa using hcase
        rw [hre] at hp
        simp at hp
        exact hne hp.symm
    · rw [hdb2]
      unfold GetPasswordResetTokenByToken
      rw [find?_append_none]
      · simp
      · rw [List.find?_eq_none]
        intro r hr hp
        exact h2 r (hmem r hr) (by simpa using hp)

/-- Witness for C6's two-creation scenario at concrete codes. -/
theorem C6_at_most_one_live_code_witness :
    GetPasswordResetTokenByToken
      ((CreatePasswordResetToken ((CreatePasswordResetToken [] "u1" 10 900 "111111"
        1).2) "u1" 20 900 "222222" 2).2) "111111" = none ∧
    GetPasswordResetTokenByToken
      ((CreatePasswordResetToken ((CreatePasswordResetToken [] "u1" 10 900 "111111"
        1).2) "u1" 20 900 "222222" 2).2) "222222" =
      some { id := 2, userId := "u1", token := "222222", expiresAt := 920,
             used := false } :=
  C6_at_most_one_live_code.2.2 [] "u1" "111111" "222222" 10 900 1 20 900 2
    (by decide) (by decide) (by decide)

theorem winner_start (fr : Option RefreshTokenRow) (n : String) :
    winner ⟨Phase.start, fr, n⟩ = false := rfl

theorem winner_gotToken (fr : Option RefreshTokenRow) (n : String) :
    winner ⟨Phase.gotToken, fr, n⟩ = false := rfl

theorem winner_fetchedUser (fr : Option RefreshTokenRow) (n : String) :
    winner ⟨Phase.fetchedUser, fr, n⟩ = false := rfl

theorem winner_revokedOld (fr : Option RefreshTokenRow) (n : String) :
    winner ⟨Phase.revokedOld, fr, n⟩ = true := rfl

theorem winner_failed (fr : Option RefreshTokenRow) (n : String) :
    winner ⟨Phase.failed, fr, n⟩ = false := rfl

theorem winner_committed (fr : Option RefreshTokenRow) (n : String) :
    winner ⟨Phase.committed, fr, n⟩ = true := rfl

theorem winner_eq_true_iff (p : Proc) :
    winner p = true ↔ p.phase = Phase.revokedOld ∨ p.phase = Phase.committed := by
  obtain ⟨ph, fr, n⟩ := p
  cases ph <;> simp [winner]

theorem terminal_eq_true_iff (p : Phase) :
    terminal p = true ↔ p = Phase.failed ∨ p = Phase.committed := by
  cases p <;> simp [terminal]

theorem RaceInv.swap_inv {t : String} {r0 : RefreshTokenRow} {toks : List String}
    {na nb : String} {s : TwoSys} (h : RaceInv t r0 toks na nb s) :
    RaceInv t r0 toks nb na s.swap := by
  obtain ⟨tRows, notBoth, tokensSub, fetchedA, fetchedB, failA, failB, newA, newB⟩ := h
  refine ⟨?_, ?_, ?_, fetchedB, fetchedA, failB, failA, newB, newA⟩
  · rw [Bool.or_comm]
    exact tRows
  · rintro ⟨h1, h2⟩
    exact notBoth ⟨h2, h1⟩
  · intro r hr
    rcases tokensSub r hr with h | h | h
    · exact Or.inl h
    · exact Or.inr (Or.inr h)
    · exact Or.inr (Or.inl h)

theorem RaceCtx.swap_ctx {users : UserDB} {t : String} {now : Nat}
    {r0 : RefreshTokenRow} {toks : List String} {na nb : String}
    (h : RaceCtx users t now r0 toks na nb) : RaceCtx users t now r0 toks nb na :=
  ⟨h.rtok, h.rrev, h.rexp, h.huser, h.hnb, h.hna, h.hne.symm, h.ht⟩

theorem sysStep_false_swap (users : UserDB) (t : String) (now dur : Nat)
    (s : TwoSys) :
    (sysStep users t now dur s false).swap = sysStep users t now dur s.swap true := rfl

theorem TwoSys.swap_swap (s : TwoSys) : s.swap.swap = s := rfl

/-- The A-scheduled step preserves the race invariant. -/
theorem procStepA_preserves {users : UserDB} {t : String} {now dur : Nat}
    {r0 : RefreshTokenRow} {toks : List String} {na nb : String} {s : TwoSys}
    (ctx : RaceCtx users t now r0 toks na nb)
    (inv : RaceInv t r0 toks na nb s) :
    RaceInv t r0 toks na nb (sysStep users t now dur s true) := by
  obtain ⟨db, A, B⟩ := s
  obtain ⟨pa, fra, nta⟩ := A
  obtain ⟨tRows, notBoth, tokensSub, fetchedA, fetchedB, failA, failB, newA, newB⟩ := inv
  dsimp only at tRows notBoth tokensSub fetchedA fetchedB failA failB newA newB
  cases pa with
  | start =>
    cases hW : winner B with
    | true =>
      have hnil : db.filter (fun r => r.token == t) = [] := by
        rw [winner_start, hW] at tRows
        simpa using tRows
      have hstep : sysStep users t now dur ⟨db, ⟨Phase.start, fra, nta⟩, B⟩ true =
          ⟨db, ⟨Phase.failed, fra, nta⟩, B⟩ := by
        simp [sysStep, procStep, getRefreshToken_of_filter_nil db t now hnil]
      rw [hstep]
      refine ⟨?_, ?_, ?_, ?_, fetchedB, ?_, ?_, newA, newB⟩ <;> dsimp only
      · rw [winner_failed, hW]
        simpa using hnil
      · rintro ⟨h1, -⟩
        rw [winner_failed] at h1
        exact Bool.noConfusion h1
      · intro r hr
        rcases tokensSub r hr with h | ⟨h1, -⟩ | h
        · exact Or.inl h
        · exact absurd h1 (fun hc => Phase.noConfusion hc)
        · exact Or.inr (Or.inr h)
      · rintro (h | h | h | h) <;> exact Phase.noConfusion h
      · intro _
        exact hW
      · intro hBf
        have hc := failB hBf
        rw [winner_start] at hc
        exact Bool.noConfusion hc
    | false =>
      have hone : db.filter (fun r => r.token == t) = [r0] := by
        rw [winner_start, hW] at tRows
        simpa using tRows
      have hstep : sysStep users t now dur ⟨db, ⟨Phase.start, fra, nta⟩, B⟩ true =
          ⟨db, ⟨Phase.gotToken, some r0, nta⟩, B⟩ := by
        simp [sysStep, procStep,
          getRefreshToken_of_filter_single db t now r0 ctx.rrev ctx.rexp hone]
      rw [hstep]
      refine ⟨?_, ?_, ?_, ?_, fetchedB, ?_, ?_, newA, newB⟩ <;> dsimp only
      · rw [winner_gotToken, hW]
        simpa using hone
      · rintro ⟨h1, -⟩
        rw [winner_gotToken] at h1
        exact Bool.noConfusion h1
      · intro r hr
        rcases tokensSub r hr with h | ⟨h1, -⟩ | h
        · exact Or.inl h
        · exact absurd h1 (fun hc => Phase.noConfusion hc)
        · exact Or.inr (Or.inr h)
      · intro _
        rfl
      · intro h
        exact Phase.noConfusion h
      · intro hBf
        have hc := failB hBf
        rw [winner_start] at hc
        exact Bool.noConfusion hc
  | gotToken =>
    have hfr : fra = some r0 := fetchedA (Or.inl rfl)
    subst hfr
    obtain ⟨u, hu⟩ := Option.isSome_iff_exists.mp ctx.huser
    have hstep : sysStep users t now dur ⟨db, ⟨Phase.gotToken, some r0, nta⟩, B⟩ true =
        ⟨db, ⟨Phase.fetchedUser, some r0, nta⟩, B⟩ := by
      simp [sysStep, procStep, hu]
    rw [hstep]
    refine ⟨?_, ?_, ?_, ?_, fetchedB, ?_, ?_, newA, newB⟩ <;> dsimp only
    · rw [winner_fetchedUser]
      rw [winner_gotToken] at tRows
      exact tRows
    · rintro ⟨h1, -⟩
      rw [winner_fetchedUser] at h1
      exact Bool.noConfusion h1
    · intro r hr
      rcases tokensSub r hr with h | ⟨h1, -⟩ | h
      · exact Or.inl h
      · exact absurd h1 (fun hc => Phase.noConfusion hc)
      · exact Or.inr (Or.inr h)
    · intro _
      rfl
    · intro h
      exact Phase.noConfusion h
    · intro hBf
      have hc := failB hBf
      rw [winner_gotToken] at hc
      exact Bool.noConfusion hc
  | fetchedUser =>
    have hfr : fra = some r0 := fetchedA (Or.inr (Or.inl rfl))
    subst hfr
    cases hW : winner B with
    | true =>
      have hnil : db.filter (fun r => r.token == t) = [] := by
        rw [winner_fetchedUser, hW] at tRows
        simpa using tRows
      have hstep : sysStep users t now dur
          ⟨db, ⟨Phase.fetchedUser, some r0, nta⟩, B⟩ true =
          ⟨db, ⟨Phase.failed, some r0, nta⟩, B⟩ := by
        simp [sysStep, procStep, revoke_of_filter_nil db t hnil]
      rw [hstep]
      refine ⟨?_, ?_, ?_, ?_, fetchedB, ?_, ?_, newA, newB⟩ <;> dsimp only
      · rw [winner_failed, hW]
        simpa using hnil
      · rintro ⟨h1, -⟩
        rw [winner_failed] at h1
        exact Bool.noConfusion h1
      · intro r hr
        rcases tokensSub r hr with h | ⟨h1, -⟩ | h
        · exact Or.inl h
        · exact absurd h1 (fun hc => Phase.noConfusion hc)
        · exact Or.inr (Or.inr h)
      · rintro (h | h | h | h) <;> exact Phase.noConfusion h
      · intro _
        exact hW
      · intro hBf
        have hc := failB hBf
        rw [winner_fetchedUser] at hc
        exact Bool.noConfusion hc
    | false =>
      have hone : db.filter (fun r => r.token == t) = [r0] := by
        rw [winner_fetchedUser, hW] at tRows
        simpa using tRows
      have hstep : sysStep users t now dur
          ⟨db, ⟨Phase.fetchedUser, some r0, nta⟩, B⟩ true =
          ⟨db.filter (fun r => r.token != t), ⟨Phase.revokedOld, some r0, nta⟩, B⟩ := by
        simp [sysStep, procStep, revoke_of_filter_single db t r0 hone]
      rw [hstep]
      refine ⟨?_, ?_, ?_, ?_, fetchedB, ?_, ?_, newA, newB⟩ <;> dsimp only
      · rw [winner_revokedOld]
        simp only [Bool.true_or, if_true]
        rw [List.filter_eq_nil_iff]
        intro r hr hp
        have hne := (List.mem_filter.mp hr).2
        rw [bne_iff_ne] at hne
        exact hne (by simpa using hp)
      · rintro ⟨-, h2⟩
        rw [hW] at h2
        exact Bool.noConfusion h2
      · intro r hr
        rcases tokensSub r ((List.mem_filter.mp hr).1) with h | ⟨h1, -⟩ | h
        · exact Or.inl h
        · exact absurd h1 (fun hc => Phase.noConfusion hc)
        · exact Or.inr (Or.inr h)
      · intro _
        rfl
      · intro h
        exact Phase.noConfusion h
      · intro _
        rw [winner_revokedOld]
  | revokedOld =>
    have hfr : fra = some r0 := fetchedA (Or.inr (Or.inr (Or.inl rfl)))
    subst hfr
    have hBnc : B.phase ≠ Phase.committed := by
      intro hBc
      refine notBoth ⟨?_, ?_⟩
      · rw [winner_revokedOld]
      · rw [(winner_eq_true_iff B).mpr (Or.inr hBc)]
    have hnat : nta ≠ t := by
      intro hcontra
      rw [newA] at hcontra
      exact ctx.hna (hcontra ▸ ctx.ht)
    have hany : db.any (fun r => r.token == nta) = false := by
      rw [List.any_eq_false]
      intro r hr hp
      have hrt : r.token = nta := by simpa using hp
      rcases tokensSub r hr with h | ⟨h1, -⟩ | ⟨h1, -⟩
      · rw [hrt, newA] at h
        exact ctx.hna h
      · exact Phase.noConfusion h1
      · exact hBnc h1
    have hstep : sysStep users t now dur
        ⟨db, ⟨Phase.revokedOld, some r0, nta⟩, B⟩ true =
        ⟨db ++ [{ token := nta, userId := r0.userId, expiresAt := now + dur,
                  revoked := false, ipAddress := r0.ipAddress,
                  userAgent := r0.userAgent }],
         ⟨Phase.committed, some r0, nta⟩, B⟩ := by
      simp [sysStep, procStep, CreateRefreshToken, hany]
    rw [hstep]
    refine ⟨?_, ?_, ?_, ?_, fetchedB, ?_, ?_, newA, newB⟩ <;> dsimp only
    · rw [winner_committed]
      simp only [Bool.true_or, if_true]
      rw [winner_revokedOld] at tRows
      simp only [Bool.true_or, if_true] at tRows
      rw [List.filter_append, tRows]
      simp [hnat]
    · rintro ⟨-, h2⟩
      refine notBoth ⟨?_, h2⟩
      rw [winner_revokedOld]
    · intro r hr
      rcases List.mem_append.mp hr with hcase | hcase
      · rcases tokensSub r hcase with h | ⟨h1, -⟩ | h
        · exact Or.inl h
        · exact absurd h1 (fun hc => Phase.noConfusion hc)
        · exact Or.inr (Or.inr h)
      · have hre : r = { token := nta, userId := r0.userId, expiresAt := now + dur,
                         revoked := false, ipAddress := r0.ipAddress,
                         userAgent := r0.userAgent } := by
          simpa using hcase
        refine Or.inr (Or.inl ⟨rfl, ?_⟩)
        rw [hre]
        exact newA
    · intro _
      rfl
    · intro h
      exact Phase.noConfusion h
    · intro _
      rw [winner_committed]
  | failed =>
    exact ⟨tRows, notBoth, tokensSub, fetchedA, fetchedB, failA, failB, newA, newB⟩
  | committed =>
    exact ⟨tRows, notBoth, tokensSub, fetchedA, fetchedB, failA, failB, newA, newB⟩

theorem sysStep_preserves {users : UserDB} {t : String} {now dur : Nat}
    {r0 : RefreshTokenRow} {toks : List String} {na nb : String} {s : TwoSys}
    (ctx : RaceCtx users t now r0 toks na nb)
    (inv : RaceInv t r0 toks na nb s) (c : Bool) :
    RaceInv t r0 toks na nb (sysStep users t now dur s c) := by
  cases c with
  | true => exact procStepA_preserves ctx inv
  | false =>
    have h1 := @procStepA_preserves users t now dur r0 toks nb na s.swap
      ctx.swap_ctx inv.swap_inv
    rw [← sysStep_false_swap] at h1
    have h2 := h1.swap_inv
    rwa [TwoSys.swap_swap] at h2

theorem sysRun_preserves {users : UserDB} {t : String} {now dur : Nat}
    {r0 : RefreshTokenRow} {toks : List String} {na nb : String}
    (ctx : RaceCtx users t now r0 toks na nb) :
    ∀ (cs : List Bool) (s : TwoSys), RaceInv t r0 toks na nb s →
      RaceInv t r0 toks na nb (sysRun users t now dur s cs) := by
  intro cs
  induction cs with
  | nil => intro s h; exact h
  | cons c rest ih =>
    intro s h
    exact ih _ (sysStep_preserves ctx h c)

/-- C2: two concurrent `RefreshAccessToken(T)` runs, interleaved in any order
at the granularity of their SQL statements, end with exactly one success and
one failure — never two rotations from one token — because the DELETE of the
contested row is atomic and its `rowsAffected = 0` outcome fails the loser,
and the lookup of the winner-deleted row fails a late-starting loser. The
failing run's HTTP response is the uniform 401 "invalid refresh token", and
after either outcome T resolves to no row, so no later refresh ever accepts
it. Hypotheses: the ledger holds exactly one live row for T, its user exists,
and the two runs' fresh uuids are distinct and unused. -/
theorem C2_concurrent_refresh_one_success (users : UserDB) (db0 : RefreshDB)
    (t na nb : String) (now dur : Nat) (r0 : RefreshTokenRow)
    (fra frb : Option RefreshTokenRow) (cs : List Bool)
    (hone : db0.filter (fun r => r.token == t) = [r0])
    (hrev : r0.revoked = false) (hexp : now < r0.expiresAt)
    (huser : (GetUserByID users r0.userId).isSome = true)
    (hna : na ∉ db0.map (fun r => r.token))
    (hnb : nb ∉ db0.map (fun r => r.token))
    (hnanb : na ≠ nb)
    (htermA : terminal (sysRun users t now dur (raceInit db0 fra frb na nb)
      cs).A.phase = true)
    (htermB : terminal (sysRun users t now dur (raceInit db0 fra frb na nb)
      cs).B.phase = true) :
    (((sysRun users t now dur (raceInit db0 fra frb na nb) cs).A.phase =
        Phase.committed ∧
      (sysRun users t now dur (raceInit db0 fra frb na nb) cs).B.phase =
        Phase.failed ∧
      refreshEndpointResponse
        (sysRun users t now dur (raceInit db0 fra frb na nb) cs).A.phase =
        some { status := 200, body := "token refreshed" } ∧
      refreshEndpointResponse
        (sysRun users t now dur (raceInit db0 fra frb na nb) cs).B.phase =
        some { status := 401, body := "invalid refresh token" }) ∨
     ((sysRun users t now dur (raceInit db0 fra frb na nb) cs).A.phase =
        Phase.failed ∧
      (sysRun users t now dur (raceInit db0 fra frb na nb) cs).B.phase =
        Phase.committed ∧
      refreshEndpointResponse
        (sysRun users t now dur (raceInit db0 fra frb na nb) cs).A.phase =
        some { status := 401, body := "invalid refresh token" } ∧
      refreshEndpointResponse
        (sysRun users t now dur (raceInit db0 fra frb na nb) cs).B.phase =
        some { status := 200, body := "token refreshed" })) ∧
    (∀ now2 : Nat, GetRefreshToken
      (sysRun users t now dur (raceInit db0 fra frb na nb) cs).db t now2 =
      .ok none) ∧
    (∀ (users2 : UserDB) (now2 aD rD : Nat) (sec nt : String),
      (RefreshAccessToken users2
        (sysRun users t now dur (raceInit db0 fra frb na nb) cs).db t now2 aD rD
        sec nt).result = .error "invalid refresh token") := by
  have hr0filter : r0 ∈ db0.filter (fun r => r.token == t) := by
    rw [hone]
    exact List.mem_singleton.mpr rfl
  have hr0mem : r0 ∈ db0 := (List.mem_filter.mp hr0filter).1
  have hrtok : r0.token = t := by
    have := (List.mem_filter.mp hr0filter).2
    simpa using this
  have hht : t ∈ db0.map (fun r => r.token) := by
    rw [← hrtok]
    exact List.mem_map_of_mem _ hr0mem
  have ctx : RaceCtx users t now r0 (db0.map (fun r => r.token)) na nb :=
    ⟨hrtok, hrev, hexp, huser, hna, hnb, hnanb, hht⟩
  have inv0 : RaceInv t r0 (db0.map (fun r => r.token)) na nb
      (raceInit db0 fra frb na nb) := by
    refine ⟨?_, ?_, ?_, ?_, ?_, ?_, ?_, rfl, rfl⟩ <;> dsimp only [raceInit]
    · rw [winner_start, winner_start]
      simpa using hone
    · rintro ⟨h1, -⟩
      rw [winner_start] at h1
      exact Bool.noConfusion h1
    · intro r hr
      exact Or.inl (List.mem_map_of_mem _ hr)
    · rintro (h | h | h | h) <;> exact Phase.noConfusion h
    · rintro (h | h | h | h) <;> exact Phase.noConfusion h
    · intro h
      exact Phase.noConfusion h
    · intro h
      exact Phase.noConfusion h
  obtain ⟨tRows, notBoth, tokensSub, fA, fB, failA, failB, hnA, hnB⟩ :=
    sysRun_preserves ctx cs (raceInit db0 fra frb na nb) inv0
  have hclass : ((sysRun users t now dur (raceInit db0 fra frb na nb) cs).A.phase =
        Phase.committed ∧
      (sysRun users t now dur (raceInit db0 fra frb na nb) cs).B.phase =
        Phase.failed) ∨
      ((sysRun users t now dur (raceInit db0 fra frb na nb) cs).A.phase =
        Phase.failed ∧
      (sysRun users t now dur (raceInit db0 fra frb na nb) cs).B.phase =
        Phase.committed) := by
    rcases (terminal_eq_true_iff _).mp htermA with hAf | hAc
    · rcases (terminal_eq_true_iff _).mp htermB with hBf | hBc
      · rcases (winner_eq_true_iff _).mp (failB hBf) with h | h <;>
          (rw [hAf] at h; exact Phase.noConfusion h)
      · exact Or.inr ⟨hAf, hBc⟩
    · rcases (terminal_eq_true_iff _).mp htermB with hBf | hBc
      · exact Or.inl ⟨hAc, hBf⟩
      · exact absurd ⟨(winner_eq_true_iff _).mpr (Or.inr hAc),
          (winner_eq_true_iff _).mpr (Or.inr hBc)⟩ notBoth
  have hWtrue : (winner (sysRun users t now dur (raceInit db0 fra frb na nb) cs).A ||
      winner (sysRun users t now dur (raceInit db0 fra frb na nb) cs).B) = true := by
    rcases hclass with ⟨hA, -⟩ | ⟨-, hB⟩
    · rw [(winner_eq_true_iff _).mpr (Or.inr hA)]
      rfl
    · rw [(winner_eq_true_iff _).mpr (Or.inr hB)]
      simp
  have hnil : (sysRun users t now dur (raceInit db0 fra frb na nb) cs).db.filter
      (fun r => r.token == t) = [] := by
    rw [tRows, if_pos hWtrue]
  refine ⟨?_, fun now2 => getRefreshToken_of_filter_nil _ t now2 hnil, ?_⟩
  · rcases hclass with ⟨hA, hB⟩ | ⟨hA, hB⟩
    · exact Or.inl ⟨hA, hB, by rw [hA]; rfl, by rw [hB]; rfl⟩
    · exact Or.inr ⟨hA, hB, by rw [hA]; rfl, by rw [hB]; rfl⟩
  · intro users2 now2 aD rD sec nt
    unfold RefreshAccessToken
    rw [getRefreshToken_of_filter_nil _ t now2 hnil]

/-- Witness for C2: alice's single live token, schedule "A runs its four
statements, then B runs": A commits the rotation, B's lookup finds nothing
and fails with the 401 response. -/
theorem C2_concurrent_refresh_one_success_witness :
    ((sysRun [exAlice] "rt-old" 50 604800 (raceInit [exRowOld] none none "rt-a"
        "rt-b") [true, true, true, true, false]).A.phase = Phase.committed ∧
      (sysRun [exAlice] "rt-old" 50 604800 (raceInit [exRowOld] none none "rt-a"
        "rt-b") [true, true, true, true, false]).B.phase = Phase.failed ∧
      refreshEndpointResponse (sysRun [exAlice] "rt-old" 50 604800
        (raceInit [exRowOld] none none "rt-a" "rt-b")
        [true, true, true, true, false]).A.phase =
        some { status := 200, body := "token refreshed" } ∧
      refreshEndpointResponse (sysRun [exAlice] "rt-old" 50 604800
        (raceInit [exRowOld] none none "rt-a" "rt-b")
        [true, true, true, true, false]).B.phase =
        some { status := 401, body := "invalid refresh token" }) ∨
    ((sysRun [exAlice] "rt-old" 50 604800 (raceInit [exRowOld] none none "rt-a"
        "rt-b") [true, true, true, true, false]).A.phase = Phase.failed ∧
      (sysRun [exAlice] "rt-old" 50 604800 (raceInit [exRowOld] none none "rt-a"
        "rt-b") [true, true, true, true, false]).B.phase = Phase.committed ∧
      refreshEndpointResponse (sysRun [exAlice] "rt-old" 50 604800
        (raceInit [exRowOld] none none "rt-a" "rt-b")
        [true, true, true, true, false]).A.phase =
        some { status := 401, body := "invalid refresh token" } ∧
      refreshEndpointResponse (sysRun [exAlice] "rt-old" 50 604800
        (raceInit [exRowOld] none none "rt-a" "rt-b")
        [true, true, true, true, false]).B.phase =
        some { status := 200, body := "token refreshed" }) :=
  (C2_concurrent_refresh_one_success [exAlice] [exRowOld] "rt-old" "rt-a" "rt-b"
    50 604800 exRowOld none none [true, true, true, true, false] (by decide)
    (by decide) (by decide) (by decide) (by decide) (by decide) (by decide)
    (by decide) (by decide)).1

end ChefShare
